import Mathlib

/-!
Verification of the callback-lifecycle and type-state context subsystem of the
`bela-rs` crate, as a shallow embedding in Lean 4.

The embedding follows the Rust source:
  * `src/context.rs` — digital I/O codec (`digital_read`, `digital_write`,
    `digital_write_once`, `pin_mode`, `pin_mode_once`), the phase-tagged
    `Context` and its per-phase method sets;
  * `src/auxiliary_task.rs` — `create_auxiliary_task` / `schedule_auxiliary_task`;
  * `src/lib.rs` — `UserData`, the setup/render/cleanup trampolines and
    `Bela::run`.

`u32` words are modelled as `Nat` kept below `2 ^ 32`; the bitwise complement
`!m` of a `u32` mask is `(2 ^ 32 - 1) ^^^ m`.  Buffers are `List Nat`.
Engine responses (raw handles, status codes) are explicit parameters; a raw
handle value of `0` models a null pointer.  Potentially panicking user code is
modelled by `PanicOutcome`, and `catch_unwind` by the conversion to `Option`.
-/

namespace BelaRs

/-! ## Digital I/O codec (src/context.rs, lines 177-230) -/

/-- `DigitalDirection` from `src/context.rs`. -/
inductive DigitalDirection
  | Input
  | Output
  deriving DecidableEq, Repr

/-- The `u32` mask `1 << (channel + 16)` targeting the value bit of a channel. -/
def valueMask (channel : Nat) : Nat := 2 ^ (channel + 16)

/-- The `u32` mask `1 << channel` targeting the direction bit of a channel. -/
def directionMask (channel : Nat) : Nat := 2 ^ channel

/-- Bitwise complement of a mask within a 32-bit word: `!m` on `u32`. -/
def not32 (m : Nat) : Nat := (2 ^ 32 - 1) ^^^ m

/-- Effect of `digital_write` / `digital_write_once` on one word:
`if value { w |= 1 << (channel+16) } else { w &= !(1 << (channel+16)) }`. -/
def writeWord (value : Bool) (channel : Nat) (w : Nat) : Nat :=
  if value then w ||| valueMask channel else w &&& not32 (valueMask channel)

/-- Effect of `pin_mode` / `pin_mode_once` on one word:
`Input` sets bit `channel`, `Output` clears it. -/
def modeWord (mode : DigitalDirection) (channel : Nat) (w : Nat) : Nat :=
  match mode with
  | .Input => w ||| directionMask channel
  | .Output => w &&& not32 (directionMask channel)

/-- `RenderContext::digital_read` (src/context.rs:177-180):
`(digital[frame] >> (channel + 16)) & 1 != 0`. -/
def digital_read (digital : List Nat) (frame channel : Nat) : Bool :=
  ((digital.getD frame 0) >>> (channel + 16)) &&& 1 != 0

/-- `RenderContext::digital_write` (src/context.rs:183-192): applies
`writeWord` to every word of `digital[frame..]`. -/
def digital_write (digital : List Nat) (frame channel : Nat) (value : Bool) :
    List Nat :=
  digital.take frame ++ (digital.drop frame).map (writeWord value channel)

/-- `RenderContext::digital_write_once` (src/context.rs:195-202): applies
`writeWord` to `digital[frame]` only. -/
def digital_write_once (digital : List Nat) (frame channel : Nat)
    (value : Bool) : List Nat :=
  digital.set frame (writeWord value channel (digital.getD frame 0))

/-- `RenderContext::pin_mode` (src/context.rs:205-217): applies `modeWord` to
every word of `digital[frame..]`. -/
def pin_mode (digital : List Nat) (frame channel : Nat)
    (mode : DigitalDirection) : List Nat :=
  digital.take frame ++ (digital.drop frame).map (modeWord mode channel)

/-- `RenderContext::pin_mode_once` (src/context.rs:220-230): applies
`modeWord` to `digital[frame]` only. -/
def pin_mode_once (digital : List Nat) (frame channel : Nat)
    (mode : DigitalDirection) : List Nat :=
  digital.set frame (modeWord mode channel (digital.getD frame 0))

/-! ### Word-level bit lemmas -/

theorem digital_read_eq_testBit (digital : List Nat) (frame channel : Nat) :
    digital_read digital frame channel =
      (digital.getD frame 0).testBit (channel + 16) := by
  unfold digital_read Nat.testBit
  rw [Nat.and_comm]

theorem testBit_not32_pow (k j : Nat) :
    (not32 (2 ^ k)).testBit j = (decide (j < 32) ^^ decide (k = j)) := by
  unfold not32
  rw [Nat.testBit_xor, Nat.testBit_two_pow_sub_one, Nat.testBit_two_pow]

theorem testBit_writeWord_eq (v : Bool) (c w j : Nat) (hw : w < 2 ^ 32)
    (hj : j ≠ c + 16) :
    (writeWord v c w).testBit j = w.testBit j := by
  cases v with
  | true =>
    simp only [writeWord, valueMask, if_true, Nat.testBit_or,
      Nat.testBit_two_pow]
    simp [Ne.symm hj]
  | false =>
    simp only [writeWord, valueMask, Bool.false_eq_true, if_false,
      Nat.testBit_and, testBit_not32_pow]
    by_cases h32 : j < 32
    · simp [h32, Ne.symm hj]
    · have : w.testBit j = false :=
        Nat.testBit_lt_two_pow (Nat.lt_of_lt_of_le hw
          (Nat.pow_le_pow_right (by omega) (by omega)))
      simp [this]

theorem testBit_writeWord_self (v : Bool) (c w : Nat) (hc : c < 16) :
    (writeWord v c w).testBit (c + 16) = v := by
  cases v with
  | true =>
    simp [writeWord, valueMask, Nat.testBit_or, Nat.testBit_two_pow]
  | false =>
    simp only [writeWord, valueMask, Bool.false_eq_true, if_false,
      Nat.testBit_and, testBit_not32_pow]
    simp [show c + 16 < 32 by omega]

theorem testBit_modeWord_eq (m : DigitalDirection) (c w j : Nat)
    (hw : w < 2 ^ 32) (hj : j ≠ c) :
    (modeWord m c w).testBit j = w.testBit j := by
  unfold modeWord directionMask
  cases m with
  | Input =>
    simp only [Nat.testBit_or, Nat.testBit_two_pow]
    simp [Ne.symm hj]
  | Output =>
    simp only [Nat.testBit_and, testBit_not32_pow]
    by_cases h32 : j < 32
    · simp [h32, Ne.symm hj]
    · have : w.testBit j = false :=
        Nat.testBit_lt_two_pow (Nat.lt_of_lt_of_le hw
          (Nat.pow_le_pow_right (by omega) (by omega)))
      simp [this]

theorem testBit_modeWord_self (m : DigitalDirection) (c w : Nat)
    (hc : c < 32) :
    (modeWord m c w).testBit c = decide (m = DigitalDirection.Input) := by
  unfold modeWord directionMask
  cases m with
  | Input => simp [Nat.testBit_or, Nat.testBit_two_pow]
  | Output =>
    simp only [Nat.testBit_and, testBit_not32_pow]
    simp [hc]

/-! ### Buffer-level indexing lemmas -/

theorem digital_write_length (digital : List Nat) (frame channel : Nat)
    (value : Bool) :
    (digital_write digital frame channel value).length = digital.length := by
  unfold digital_write
  simp
  omega

theorem pin_mode_length (digital : List Nat) (frame channel : Nat)
    (mode : DigitalDirection) :
    (pin_mode digital frame channel mode).length = digital.length := by
  unfold pin_mode
  simp
  omega

theorem digital_write_once_length (digital : List Nat) (frame channel : Nat)
    (value : Bool) :
    (digital_write_once digital frame channel value).length =
      digital.length := by
  unfold digital_write_once
  simp

theorem pin_mode_once_length (digital : List Nat) (frame channel : Nat)
    (mode : DigitalDirection) :
    (pin_mode_once digital frame channel mode).length = digital.length := by
  unfold pin_mode_once
  simp

theorem digital_write_getD (digital : List Nat) (frame channel i : Nat)
    (value : Bool) (hf : frame ≤ digital.length) (hi : i < digital.length) :
    (digital_write digital frame channel value).getD i 0 =
      if i < frame then digital.getD i 0
      else writeWord value channel (digital.getD i 0) := by
  unfold digital_write
  by_cases h : i < frame
  · rw [if_pos h]
    simp only [List.getD_eq_getElem?_getD]
    rw [List.getElem?_append_left (by simp; omega), List.getElem?_take_of_lt h]
  · rw [if_neg h]
    simp only [List.getD_eq_getElem?_getD]
    rw [List.getElem?_append_right (by simp; omega)]
    simp only [List.getElem?_map, List.getElem?_drop]
    have : frame + (i - List.length (List.take frame digital)) = i := by
      simp
      omega
    rw [this]
    have : i < digital.length := hi
    rw [List.getElem?_eq_getElem this]
    simp [List.getD_eq_getElem?_getD, List.getElem?_eq_getElem this]

theorem pin_mode_getD (digital : List Nat) (frame channel i : Nat)
    (mode : DigitalDirection) (hf : frame ≤ digital.length)
    (hi : i < digital.length) :
    (pin_mode digital frame channel mode).getD i 0 =
      if i < frame then digital.getD i 0
      else modeWord mode channel (digital.getD i 0) := by
  unfold pin_mode
  by_cases h : i < frame
  · rw [if_pos h]
    simp only [List.getD_eq_getElem?_getD]
    rw [List.getElem?_append_left (by simp; omega), List.getElem?_take_of_lt h]
  · rw [if_neg h]
    simp only [List.getD_eq_getElem?_getD]
    rw [List.getElem?_append_right (by simp; omega)]
    simp only [List.getElem?_map, List.getElem?_drop]
    have : frame + (i - List.length (List.take frame digital)) = i := by
      simp
      omega
    rw [this]
    rw [List.getElem?_eq_getElem hi]
    simp [List.getD_eq_getElem?_getD, List.getElem?_eq_getElem hi]

theorem digital_write_once_getD (digital : List Nat) (frame channel i : Nat)
    (value : Bool) (hi : i < digital.length) :
    (digital_write_once digital frame channel value).getD i 0 =
      if i = frame then writeWord value channel (digital.getD i 0)
      else digital.getD i 0 := by
  unfold digital_write_once
  by_cases h : i = frame
  · subst h
    simp [List.getD_eq_getElem?_getD, List.getElem?_set_self hi]
  · simp [List.getD_eq_getElem?_getD, List.getElem?_set_ne (Ne.symm h), h]

theorem pin_mode_once_getD (digital : List Nat) (frame channel i : Nat)
    (mode : DigitalDirection) (hi : i < digital.length) :
    (pin_mode_once digital frame channel mode).getD i 0 =
      if i = frame then modeWord mode channel (digital.getD i 0)
      else digital.getD i 0 := by
  unfold pin_mode_once
  by_cases h : i = frame
  · subst h
    simp [List.getD_eq_getElem?_getD, List.getElem?_set_self hi]
  · simp [List.getD_eq_getElem?_getD, List.getElem?_set_ne (Ne.symm h), h]

theorem writeWord_lt (v : Bool) (c w : Nat) (hw : w < 2 ^ 32) (hc : c < 16) :
    writeWord v c w < 2 ^ 32 := by
  cases v with
  | true =>
    simp only [writeWord, valueMask, if_true]
    exact Nat.or_lt_two_pow hw
      (Nat.pow_lt_pow_right (by omega) (by omega))
  | false =>
    simp only [writeWord, valueMask, Bool.false_eq_true, if_false]
    exact Nat.lt_of_le_of_lt (Nat.and_le_left) hw

theorem modeWord_lt (m : DigitalDirection) (c w : Nat) (hw : w < 2 ^ 32)
    (hc : c < 32) :
    modeWord m c w < 2 ^ 32 := by
  cases m with
  | Input =>
    simp only [modeWord, directionMask]
    exact Nat.or_lt_two_pow hw (Nat.pow_lt_pow_right (by omega) hc)
  | Output =>
    simp only [modeWord, directionMask]
    exact Nat.lt_of_le_of_lt (Nat.and_le_left) hw

/-! ## Claim theorems about the digital codec -/

/-- C3: on a digital buffer of at least 4 frames, `digital_write(2, 0, true)`
followed by `digital_write_once(2, 0, false)` leaves the value bit of
channel 0 false at frame 2 and true at every later in-range frame; in
general `digital_write` sets the value bit from its frame to the end of the
buffer and `digital_write_once` overrides only its own frame. -/
theorem digital_write_then_once_frame2 (digital : List Nat)
    (hlen : 4 ≤ digital.length) :
    (digital_read
        (digital_write_once (digital_write digital 2 0 true) 2 0 false) 2 0
      = false)
    ∧ (∀ f, 2 < f → f < digital.length →
        digital_read
          (digital_write_once (digital_write digital 2 0 true) 2 0 false) f 0
        = true)
    ∧ (∀ (buf : List Nat) (f c f' : Nat) (v : Bool), c < 16 → f ≤ f' →
        f' < buf.length → digital_read (digital_write buf f c v) f' c = v)
    ∧ (∀ (buf : List Nat) (f c f' : Nat) (v : Bool), f' < buf.length →
        f' ≠ f →
        digital_read (digital_write_once buf f c v) f' c =
          digital_read buf f' c) := by
  have hgen : ∀ (buf : List Nat) (f c f' : Nat) (v : Bool), c < 16 → f ≤ f' →
      f' < buf.length → digital_read (digital_write buf f c v) f' c = v := by
    intro buf f c f' v hc hff hf'
    rw [digital_read_eq_testBit,
      digital_write_getD buf f c f' v (by omega) hf',
      if_neg (by omega), testBit_writeWord_self v c _ hc]
  have honce : ∀ (buf : List Nat) (f c f' : Nat) (v : Bool),
      f' < buf.length → f' ≠ f →
      digital_read (digital_write_once buf f c v) f' c =
        digital_read buf f' c := by
    intro buf f c f' v hf' hne
    rw [digital_read_eq_testBit, digital_read_eq_testBit,
      digital_write_once_getD buf f c f' v hf', if_neg hne]
  have hwlen : (digital_write digital 2 0 true).length = digital.length :=
    digital_write_length digital 2 0 true
  refine ⟨?_, ?_, hgen, honce⟩
  · rw [digital_read_eq_testBit,
      digital_write_once_getD _ 2 0 2 false (by omega), if_pos rfl,
      testBit_writeWord_self false 0 _ (by omega)]
  · intro f hf2 hf
    rw [honce _ 2 0 f false (by omega) (by omega)]
    exact hgen digital 2 0 f true (by omega) (by omega) hf

/-- Concrete instance of `digital_write_then_once_frame2` on the all-zero
4-frame buffer. -/
theorem digital_write_then_once_frame2_witness :
    digital_read
        (digital_write_once (digital_write [0, 0, 0, 0] 2 0 true) 2 0 false)
        2 0 = false
    ∧ digital_read
        (digital_write_once (digital_write [0, 0, 0, 0] 2 0 true) 2 0 false)
        3 0 = true :=
  ⟨(digital_write_then_once_frame2 [0, 0, 0, 0] (by decide)).1,
   (digital_write_then_once_frame2 [0, 0, 0, 0] (by decide)).2.1 3
     (by decide) (by decide)⟩

/-- C4: each digital-codec write operation modifies only its targeted bit
(bit `c + 16` for value writes, bit `c` for direction writes) of the
affected word(s), leaving every other bit of every word unchanged; in
particular, setting channel 0 to Output with value high and channel 1 to
Input at the same frame produces no cross-talk. -/
theorem digital_ops_touch_only_target_bit :
    (∀ (buf : List Nat) (f c i j : Nat) (v : Bool),
        (∀ w ∈ buf, w < 2 ^ 32) → f ≤ buf.length → i < buf.length →
        j ≠ c + 16 →
        ((digital_write buf f c v).getD i 0).testBit j =
          (buf.getD i 0).testBit j)
    ∧ (∀ (buf : List Nat) (f c i j : Nat) (v : Bool),
        (∀ w ∈ buf, w < 2 ^ 32) → i < buf.length → j ≠ c + 16 →
        ((digital_write_once buf f c v).getD i 0).testBit j =
          (buf.getD i 0).testBit j)
    ∧ (∀ (buf : List Nat) (f c i j : Nat) (m : DigitalDirection),
        (∀ w ∈ buf, w < 2 ^ 32) → f ≤ buf.length → i < buf.length → j ≠ c →
        ((pin_mode buf f c m).getD i 0).testBit j =
          (buf.getD i 0).testBit j)
    ∧ (∀ (buf : List Nat) (f c i j : Nat) (m : DigitalDirection),
        (∀ w ∈ buf, w < 2 ^ 32) → i < buf.length → j ≠ c →
        ((pin_mode_once buf f c m).getD i 0).testBit j =
          (buf.getD i 0).testBit j)
    ∧ (∀ (buf : List Nat) (f c i : Nat) (v : Bool), f ≤ buf.length →
        i < buf.length → i < f →
        (digital_write buf f c v).getD i 0 = buf.getD i 0)
    ∧ (∀ (buf : List Nat) (f c i : Nat) (v : Bool), i < buf.length →
        i ≠ f → (digital_write_once buf f c v).getD i 0 = buf.getD i 0)
    ∧ (∀ (buf : List Nat) (f c i : Nat) (m : DigitalDirection),
        f ≤ buf.length → i < buf.length → i < f →
        (pin_mode buf f c m).getD i 0 = buf.getD i 0)
    ∧ (∀ (buf : List Nat) (f c i : Nat) (m : DigitalDirection),
        i < buf.length → i ≠ f →
        (pin_mode_once buf f c m).getD i 0 = buf.getD i 0)
    ∧ (∀ (buf : List Nat) (f : Nat), (∀ w ∈ buf, w < 2 ^ 32) →
        f < buf.length →
        (((pin_mode_once
              (digital_write_once (pin_mode_once buf f 0 .Output) f 0 true)
              f 1 .Input).getD f 0).testBit 16 = true)
        ∧ (((pin_mode_once
              (digital_write_once (pin_mode_once buf f 0 .Output) f 0 true)
              f 1 .Input).getD f 0).testBit 0 = false)
        ∧ (((pin_mode_once
              (digital_write_once (pin_mode_once buf f 0 .Output) f 0 true)
              f 1 .Input).getD f 0).testBit 1 = true)
        ∧ (((pin_mode_once
              (digital_write_once (pin_mode_once buf f 0 .Output) f 0 true)
              f 1 .Input).getD f 0).testBit 17 =
            (buf.getD f 0).testBit 17)) := by
  have hmem : ∀ (buf : List Nat) (i : Nat), (∀ w ∈ buf, w < 2 ^ 32) →
      i < buf.length → buf.getD i 0 < 2 ^ 32 := by
    intro buf i hw hi
    have hg : buf.getD i 0 = buf.get ⟨i, hi⟩ := by
      simp [List.getD_eq_getElem?_getD, List.getElem?_eq_getElem hi]
    rw [hg]
    exact hw _ (buf.get_mem i hi)
  refine ⟨?_, ?_, ?_, ?_, ?_, ?_, ?_, ?_, ?_⟩
  · intro buf f c i j v hw hf hi hj
    rw [digital_write_getD buf f c i v hf hi]
    by_cases h : i < f
    · rw [if_pos h]
    · rw [if_neg h, testBit_writeWord_eq v c _ j (hmem buf i hw hi) hj]
  · intro buf f c i j v hw hi hj
    rw [digital_write_once_getD buf f c i v hi]
    by_cases h : i = f
    · rw [if_pos h, testBit_writeWord_eq v c _ j (hmem buf i hw hi) hj]
    · rw [if_neg h]
  · intro buf f c i j m hw hf hi hj
    rw [pin_mode_getD buf f c i m hf hi]
    by_cases h : i < f
    · rw [if_pos h]
    · rw [if_neg h, testBit_modeWord_eq m c _ j (hmem buf i hw hi) hj]
  · intro buf f c i j m hw hi hj
    rw [pin_mode_once_getD buf f c i m hi]
    by_cases h : i = f
    · rw [if_pos h, testBit_modeWord_eq m c _ j (hmem buf i hw hi) hj]
    · rw [if_neg h]
  · intro buf f c i v hf hi hif
    rw [digital_write_getD buf f c i v hf hi, if_pos hif]
  · intro buf f c i v hi hif
    rw [digital_write_once_getD buf f c i v hi, if_neg hif]
  · intro buf f c i m hf hi hif
    rw [pin_mode_getD buf f c i m hf hi, if_pos hif]
  · intro buf f c i m hi hif
    rw [pin_mode_once_getD buf f c i m hi, if_neg hif]
  · intro buf f hw hf
    have h0 : buf.getD f 0 < 2 ^ 32 := hmem buf f hw hf
    have hf1 : f < (pin_mode_once buf f 0 .Output).length := by
      rw [pin_mode_once_length]
      exact hf
    have hf2 : f <
        (digital_write_once (pin_mode_once buf f 0 .Output) f 0 true).length := by
      rw [digital_write_once_length, pin_mode_once_length]
      exact hf
    have e1 : (pin_mode_once buf f 0 .Output).getD f 0 =
        modeWord .Output 0 (buf.getD f 0) := by
      rw [pin_mode_once_getD buf f 0 f .Output hf, if_pos rfl]
    have e2 :
        (digital_write_once (pin_mode_once buf f 0 .Output) f 0 true).getD f 0
          = writeWord true 0 (modeWord .Output 0 (buf.getD f 0)) := by
      rw [digital_write_once_getD _ f 0 f true hf1, if_pos rfl, e1]
    have e3 : (pin_mode_once
          (digital_write_once (pin_mode_once buf f 0 .Output) f 0 true)
          f 1 .Input).getD f 0 =
        modeWord .Input 1
          (writeWord true 0 (modeWord .Output 0 (buf.getD f 0))) := by
      rw [pin_mode_once_getD _ f 1 f .Input hf2, if_pos rfl, e2]
    have h1 : modeWord .Output 0 (buf.getD f 0) < 2 ^ 32 :=
      modeWord_lt _ _ _ h0 (by omega)
    have h2 : writeWord true 0 (modeWord .Output 0 (buf.getD f 0)) < 2 ^ 32 :=
      writeWord_lt _ _ _ h1 (by omega)
    refine ⟨?_, ?_, ?_, ?_⟩
    · rw [e3, testBit_modeWord_eq .Input 1 _ 16 h2 (by omega),
        testBit_writeWord_self true 0 _ (by omega)]
    · rw [e3, testBit_modeWord_eq .Input 1 _ 0 h2 (by omega),
        testBit_writeWord_eq true 0 _ 0 h1 (by omega),
        testBit_modeWord_self .Output 0 _ (by omega)]
      decide
    · rw [e3, testBit_modeWord_self .Input 1 _ (by omega)]
      decide
    · rw [e3, testBit_modeWord_eq .Input 1 _ 17 h2 (by omega),
        testBit_writeWord_eq true 0 _ 17 h1 (by omega),
        testBit_modeWord_eq .Output 0 _ 17 h0 (by omega)]

/-- Concrete instance of `digital_ops_touch_only_target_bit`: on the
buffer `[5, 7]`, `digital_write 0 0 true` leaves bit 0 of word 1
unchanged, and the channel-0/channel-1 same-frame scenario at frame 1
produces no cross-talk. -/
theorem digital_ops_touch_only_target_bit_witness :
    ((digital_write [5, 7] 0 0 true).getD 1 0).testBit 0 =
      (([5, 7] : List Nat).getD 1 0).testBit 0
    ∧ (((pin_mode_once
          (digital_write_once (pin_mode_once [5, 7] 1 0 .Output) 1 0 true)
          1 1 .Input).getD 1 0).testBit 17 =
        (([5, 7] : List Nat).getD 1 0).testBit 17) :=
  ⟨digital_ops_touch_only_target_bit.1 [5, 7] 0 0 1 0 true
      (by decide) (by decide) (by decide) (by decide),
   (digital_ops_touch_only_target_bit.2.2.2.2.2.2.2.2 [5, 7] 1
      (by decide) (by decide)).2.2.2⟩

/-- C5: `digital_read f c` returns bit `c + 16` of `word[f]`, and a
`digital_write_once` / `digital_write` at `(f, c)` followed by a
`digital_read` at `(f, c)` returns the written value. -/
theorem digital_read_write_round_trip :
    (∀ (buf : List Nat) (f c : Nat),
        digital_read buf f c = (buf.getD f 0).testBit (c + 16))
    ∧ (∀ (buf : List Nat) (f c : Nat) (v : Bool), f < buf.length → c < 16 →
        digital_read (digital_write_once buf f c v) f c = v
        ∧ digital_read (digital_write buf f c v) f c = v) := by
  refine ⟨fun buf f c => digital_read_eq_testBit buf f c, ?_⟩
  intro buf f c v hf hc
  constructor
  · rw [digital_read_eq_testBit, digital_write_once_getD buf f c f v hf,
      if_pos rfl, testBit_writeWord_self v c _ hc]
  · rw [digital_read_eq_testBit,
      digital_write_getD buf f c f v (by omega) hf, if_neg (by omega),
      testBit_writeWord_self v c _ hc]

/-- Concrete instance of `digital_read_write_round_trip` on the buffer
`[0, 0]` at frame 1, channel 3. -/
theorem digital_read_write_round_trip_witness :
    digital_read (digital_write_once [0, 0] 1 3 true) 1 3 = true
    ∧ digital_read (digital_write [0, 0] 1 3 true) 1 3 = true :=
  (digital_read_write_round_trip.2 [0, 0] 1 3 true (by decide) (by decide))

/-! ## Lifecycle controller (src/lib.rs) -/

/-- Outcome of running a piece of user code that may panic. -/
inductive PanicOutcome (α : Type)
  | ok (a : α)
  | panicked
  deriving DecidableEq, Repr

/-- `std::panic::catch_unwind`: a normal return becomes `some`, a panic is
caught and becomes `none` (every caller in the crate discards the boxed
payload). -/
def catch_unwind {α : Type} : PanicOutcome α → Option α
  | .ok a => some a
  | .panicked => none

/-- `UserData` from src/lib.rs:122-129. -/
inductive UserData (A C : Type)
  | Application (a : A)
  | Constructor (c : C)
  | None

/-- `UserData::is_application` (src/lib.rs:139-141). -/
def UserData.is_application {A C : Type} : UserData A C → Bool
  | .Application _ => true
  | _ => false

/-- The variant of a `UserData` value, for stating the state machine. -/
inductive Variant
  | application
  | constructor
  | empty
  deriving DecidableEq, Repr

/-- Which variant a `UserData` value holds. -/
def UserData.variant {A C : Type} : UserData A C → Variant
  | .Application _ => .application
  | .Constructor _ => .constructor
  | .None => .empty

/-- The observable result of one FFI trampoline invocation: the `UserData`
value stored afterwards, and what the engine-facing boundary observes —
a returned value, or a propagated panic. -/
structure TrampResult (σ α : Type) where
  state : σ
  ret : PanicOutcome α

/-- `setup_trampoline` (src/lib.rs:364-386).  `run c` is the outcome of
`constructor(&mut context)`: `ok (some a)` when the constructor produces
an application, `ok none` when it declines, `panicked` when it panics.
`user_data.take()` leaves `None`; the stored value is replaced by the
match result only in the `Constructor` arm, with the constructor run
under `catch_unwind`.  The function returns `user_data.is_application()`. -/
def setup_trampoline {A C : Type} (run : C → PanicOutcome (Option A))
    (u : UserData A C) : TrampResult (UserData A C) Bool :=
  match u with
  | .Constructor c =>
      let stored : UserData A C :=
        match catch_unwind (run c) with
        | some app =>
            match app with
            | some a => .Application a
            | none => .None
        | none => .None
      ⟨stored, .ok stored.is_application⟩
  | _ => ⟨.None, .ok (UserData.None : UserData A C).is_application⟩

/-- `render_trampoline` (src/lib.rs:388-400).  `render a` is the outcome of
`user_data.render(&mut context)`; no `catch_unwind` is installed there, so
a panic propagates outward, and the stored value keeps its `Application`
variant. -/
def render_trampoline {A C : Type} (render : A → PanicOutcome A)
    (u : UserData A C) : TrampResult (UserData A C) Unit :=
  match u with
  | .Application a =>
      match render a with
      | .ok a2 => ⟨.Application a2, .ok ()⟩
      | .panicked => ⟨.Application a, .panicked⟩
  | u => ⟨u, .ok ()⟩

/-- `cleanup_trampoline` (src/lib.rs:402-412).  `user_data.take()` replaces
the stored value with `None`; the taken value is dropped inside
`catch_unwind` (`dropA a` is the outcome of dropping an application) and a
panic from the drop is caught and discarded. -/
def cleanup_trampoline {A C : Type} (dropA : A → PanicOutcome Unit)
    (u : UserData A C) : TrampResult (UserData A C) Unit :=
  let dropped : PanicOutcome Unit :=
    match u with
    | .Application a => dropA a
    | _ => .ok ()
  ⟨.None,
    match catch_unwind dropped with
    | some _ => .ok ()
    | none => .ok ()⟩

/-- `auxiliary_task_trampoline` (src/auxiliary_task.rs:32-40): the task
body runs under `catch_unwind`; its panic is caught and discarded. -/
def auxiliary_task_trampoline (task : PanicOutcome Unit) :
    PanicOutcome Unit :=
  match catch_unwind task with
  | some _ => .ok ()
  | none => .ok ()

/-- C1: starting from `Constructor`, one `setup_trampoline` invocation
consumes the constructor and stores `Application` iff the constructor
returns a value; it stores `None` when the constructor declines or panics;
and its boolean return is exactly "the final state is `Application`". -/
theorem setup_from_constructor_spec {A C : Type}
    (run : C → PanicOutcome (Option A)) (c : C) :
    ((setup_trampoline run (UserData.Constructor c)).state.is_application
        = true ↔ ∃ a, run c = .ok (some a))
    ∧ (∀ a, run c = .ok (some a) →
        (setup_trampoline run (UserData.Constructor c)).state =
          .Application a)
    ∧ ((run c = .ok none ∨ run c = .panicked) →
        (setup_trampoline run (UserData.Constructor c)).state = .None)
    ∧ ((setup_trampoline run (UserData.Constructor c)).ret =
        .ok (setup_trampoline run
              (UserData.Constructor c)).state.is_application) := by
  rcases h : run c with a | _
  · rcases a with _ | a
    · simp [setup_trampoline, catch_unwind, h, UserData.is_application]
    · simp [setup_trampoline, catch_unwind, h, UserData.is_application]
  · simp [setup_trampoline, catch_unwind, h, UserData.is_application]

/-- Concrete instance of `setup_from_constructor_spec`: a constructor
returning `some 5` leaves the state `Application 5`. -/
theorem setup_from_constructor_spec_witness :
    (setup_trampoline (fun _ : Unit => PanicOutcome.ok (some 5))
        (UserData.Constructor ())).state = UserData.Application 5 :=
  (setup_from_constructor_spec
    (fun _ : Unit => PanicOutcome.ok (some (5 : Nat))) ()).2.1 5 rfl

/-- C10: invoking `setup_trampoline` when `UserData` is not in the
`Constructor` state returns `false` and leaves `None`; in particular a
second setup invocation destroys a previously constructed application,
because the stored value is taken unconditionally before the
`Constructor` check. -/
theorem setup_outside_constructor {A C : Type}
    (run : C → PanicOutcome (Option A)) :
    (∀ a : A, setup_trampoline run (UserData.Application a) =
        ⟨UserData.None, .ok false⟩)
    ∧ setup_trampoline run (UserData.None : UserData A C) =
        ⟨UserData.None, .ok false⟩ :=
  ⟨fun _ => rfl, rfl⟩

/-- C8: the setup, cleanup and auxiliary-task trampolines contain panics
and never propagate them — their engine-facing result is always a normal
return — while the render trampoline installs no containment: it
propagates a panic exactly when the user render panics. -/
theorem trampoline_panic_containment {A C : Type} :
    (∀ (run : C → PanicOutcome (Option A)) (u : UserData A C),
        (setup_trampoline run u).ret ≠ .panicked)
    ∧ (∀ (dropA : A → PanicOutcome Unit) (u : UserData A C),
        (cleanup_trampoline dropA u).ret = .ok ())
    ∧ (∀ task : PanicOutcome Unit, auxiliary_task_trampoline task = .ok ())
    ∧ (∀ (render : A → PanicOutcome A) (a : A),
        ((render_trampoline render
            (UserData.Application a : UserData A C)).ret = .panicked
          ↔ render a = .panicked)) := by
  refine ⟨?_, ?_, ?_, ?_⟩
  · intro run u
    cases u with
    | Constructor c => simp [setup_trampoline]
    | Application a => simp [setup_trampoline]
    | None => simp [setup_trampoline]
  · intro dropA u
    cases h : catch_unwind (match u with
      | UserData.Application a => dropA a
      | _ => .ok ()) <;> simp [cleanup_trampoline, h]
  · intro task
    cases h : catch_unwind task <;> simp [auxiliary_task_trampoline, h]
  · intro render a
    rcases h : render a with a2 | _ <;> simp [render_trampoline, h]

/-- Concrete instance of `trampoline_panic_containment`: a panicking task
body is contained by the auxiliary-task trampoline, and a panicking render
propagates through the render trampoline. -/
theorem trampoline_panic_containment_witness :
    auxiliary_task_trampoline .panicked = .ok ()
    ∧ (render_trampoline (fun _ : Nat => (PanicOutcome.panicked : PanicOutcome Nat))
        (UserData.Application 0 : UserData Nat Unit)).ret = .panicked :=
  ⟨(trampoline_panic_containment (A := Nat) (C := Unit)).2.2.1 .panicked,
   ((trampoline_panic_containment (A := Nat) (C := Unit)).2.2.2
      (fun _ => .panicked) 0).mpr rfl⟩

/-! ## Entry-point invocation sequences -/

/-- One engine invocation of an entry point, carrying the user code that
runs inside it. -/
inductive Event (A C : Type)
  | setupEv (run : C → PanicOutcome (Option A))
  | renderEv (render : A → PanicOutcome A)
  | cleanupEv (dropA : A → PanicOutcome Unit)

/-- The `UserData` stored after one entry-point invocation. -/
def stepEvent {A C : Type} (u : UserData A C) : Event A C → UserData A C
  | .setupEv run => (setup_trampoline run u).state
  | .renderEv render => (render_trampoline render u).state
  | .cleanupEv dropA => (cleanup_trampoline dropA u).state

/-- The `UserData` stored after a sequence of entry-point invocations. -/
def runEvents {A C : Type} (u : UserData A C) (es : List (Event A C)) :
    UserData A C :=
  es.foldl stepEvent u

theorem setup_state_not_constructor {A C : Type}
    (run : C → PanicOutcome (Option A)) (u : UserData A C) :
    (setup_trampoline run u).state.variant ≠ .constructor := by
  cases u with
  | Constructor c =>
    rcases h : run c with a | _
    · rcases a with _ | a <;>
        simp [setup_trampoline, catch_unwind, h, UserData.variant]
    · simp [setup_trampoline, catch_unwind, h, UserData.variant]
  | Application a => simp [setup_trampoline, UserData.variant]
  | None => simp [setup_trampoline, UserData.variant]

theorem render_state_variant {A C : Type} (render : A → PanicOutcome A)
    (u : UserData A C) :
    (render_trampoline render u).state.variant = u.variant := by
  cases u with
  | Application a =>
    rcases h : render a with a2 | _ <;>
      simp [render_trampoline, h, UserData.variant]
  | Constructor c => simp [render_trampoline, UserData.variant]
  | None => simp [render_trampoline, UserData.variant]

theorem stepEvent_not_constructor {A C : Type} (u : UserData A C)
    (e : Event A C) (hu : u.variant ≠ .constructor) :
    (stepEvent u e).variant ≠ .constructor := by
  cases e with
  | setupEv run => exact setup_state_not_constructor run u
  | renderEv render => rw [stepEvent, render_state_variant]; exact hu
  | cleanupEv dropA => simp [stepEvent, cleanup_trampoline, UserData.variant]

theorem runEvents_not_constructor {A C : Type} (es : List (Event A C))
    (u : UserData A C) (hu : u.variant ≠ .constructor) :
    (runEvents u es).variant ≠ .constructor := by
  induction es generalizing u with
  | nil => exact hu
  | cons e es ih => exact ih (stepEvent u e) (stepEvent_not_constructor u e hu)

/-- C9: over every sequence of setup/render/cleanup invocations starting
from `Constructor`, the stored `UserData` is never observed back in the
`Constructor` variant once a setup invocation has returned; setup from
`Constructor` yields `Application` or `None`; render never changes the
variant; cleanup always leaves `None`. -/
theorem userdata_never_back_to_constructor {A C : Type} :
    (∀ (c : C) (es1 : List (Event A C)) (run : C → PanicOutcome (Option A))
        (es2 : List (Event A C)),
        (runEvents (UserData.Constructor c)
            (es1 ++ Event.setupEv run :: es2)).variant ≠ .constructor)
    ∧ (∀ (run : C → PanicOutcome (Option A)) (c : C),
        (∃ a, (setup_trampoline run (UserData.Constructor c)).state =
            .Application a)
        ∨ (setup_trampoline run (UserData.Constructor c)).state = .None)
    ∧ (∀ (render : A → PanicOutcome A) (u : UserData A C),
        (render_trampoline render u).state.variant = u.variant)
    ∧ (∀ (dropA : A → PanicOutcome Unit) (u : UserData A C),
        (cleanup_trampoline dropA u).state = .None)
    ∧ (∀ (e : Event A C) (u : UserData A C),
        (stepEvent u e).variant = u.variant
        ∨ (u.variant = .constructor
            ∧ ((stepEvent u e).variant = .application
               ∨ (stepEvent u e).variant = .empty))
        ∨ (u.variant = .application
            ∧ (stepEvent u e).variant = .empty)) := by
  refine ⟨?_, ?_, render_state_variant, fun _ _ => rfl, ?_⟩
  · intro c es1 run es2
    have hsplit : runEvents (UserData.Constructor c)
        (es1 ++ Event.setupEv run :: es2) =
        runEvents (stepEvent (runEvents (UserData.Constructor c) es1)
          (Event.setupEv run)) es2 := by
      unfold runEvents
      rw [List.foldl_append]
      rfl
    rw [hsplit]
    exact runEvents_not_constructor es2 _
      (setup_state_not_constructor run _)
  · intro run c
    rcases h : run c with a | _
    · rcases a with _ | a
      · right
        simp [setup_trampoline, catch_unwind, h]
      · left
        exact ⟨a, by simp [setup_trampoline, catch_unwind, h]⟩
    · right
      simp [setup_trampoline, catch_unwind, h]
  · intro e u
    cases e with
    | setupEv run =>
      cases u with
      | Constructor c =>
        right
        left
        refine ⟨rfl, ?_⟩
        rcases h : run c with a | _
        · rcases a with _ | a
          · right
            simp [stepEvent, setup_trampoline, catch_unwind, h,
              UserData.variant]
          · left
            simp [stepEvent, setup_trampoline, catch_unwind, h,
              UserData.variant]
        · right
          simp [stepEvent, setup_trampoline, catch_unwind, h,
            UserData.variant]
      | Application a =>
        right
        right
        exact ⟨rfl, rfl⟩
      | None =>
        left
        rfl
    | renderEv render =>
      left
      exact render_state_variant render u
    | cleanupEv dropA =>
      cases u with
      | Application a =>
        right
        right
        exact ⟨rfl, rfl⟩
      | Constructor c =>
        right
        left
        exact ⟨rfl, Or.inr rfl⟩
      | None =>
        left
        rfl

/-- Concrete instance of `userdata_never_back_to_constructor`: after a
setup followed by a render and a cleanup, the state is not `Constructor`. -/
theorem userdata_never_back_to_constructor_witness :
    (runEvents (UserData.Constructor () : UserData Nat Unit)
        ([] ++ Event.setupEv (fun _ => .ok (some 1)) ::
          [Event.renderEv (fun a => .ok (a + 1)),
           Event.cleanupEv (fun _ => .ok ())])).variant ≠ .constructor :=
  (userdata_never_back_to_constructor (A := Nat) (C := Unit)).1 () []
    (fun _ => .ok (some 1))
    [Event.renderEv (fun a => .ok (a + 1)), Event.cleanupEv (fun _ => .ok ())]

/-! ## Top-level run sequence and auxiliary tasks -/

/-- `Error` from src/error.rs (the `midi` feature is disabled). -/
inductive Error
  | Init
  | Start
  | CreateTask
  | ScheduleTask
  deriving DecidableEq, Repr

/-- The engine lifecycle calls made by `Bela::run`. -/
inductive EngineCall
  | initAudio
  | startAudio
  | stopAudio
  | cleanupAudio
  deriving DecidableEq, Repr

/-- `Bela::run` engine-call sequence (src/lib.rs:420-443), parameterized by
the status codes the engine returns from `Bela_initAudio` and
`Bela_startAudio`.  Returns the `Result` and the list of engine lifecycle
calls made, in order.  The stop-request polling loop makes no lifecycle
calls and is elided. -/
def belaRun (initStatus startStatus : Int) :
    Except Error Unit × List EngineCall :=
  if initStatus ≠ 0 then
    (.error .Init, [.initAudio])
  else if startStatus ≠ 0 then
    (.error .Start, [.initAudio, .startAudio])
  else
    (.ok (), [.initAudio, .startAudio, .stopAudio, .cleanupAudio])

/-- C7: a nonzero init status makes `run` return the `Init` error without
calling start, stop or cleanup; a nonzero start status (after a successful
init) makes it return the `Start` error without calling stop or cleanup;
stop and cleanup are called only when both init and start succeeded. -/
theorem run_short_circuits (initStatus startStatus : Int) :
    (initStatus ≠ 0 →
        (belaRun initStatus startStatus).1 = .error Error.Init
        ∧ EngineCall.startAudio ∉ (belaRun initStatus startStatus).2
        ∧ EngineCall.stopAudio ∉ (belaRun initStatus startStatus).2
        ∧ EngineCall.cleanupAudio ∉ (belaRun initStatus startStatus).2)
    ∧ (initStatus = 0 → startStatus ≠ 0 →
        (belaRun initStatus startStatus).1 = .error Error.Start
        ∧ EngineCall.stopAudio ∉ (belaRun initStatus startStatus).2
        ∧ EngineCall.cleanupAudio ∉ (belaRun initStatus startStatus).2)
    ∧ ((EngineCall.stopAudio ∈ (belaRun initStatus startStatus).2
          ∨ EngineCall.cleanupAudio ∈ (belaRun initStatus startStatus).2) →
        initStatus = 0 ∧ startStatus = 0) := by
  by_cases hi : initStatus = 0 <;> by_cases hs : startStatus = 0 <;>
    simp [belaRun, hi, hs]

/-- Concrete instance of `run_short_circuits`: with a failing init status
`1`, `run` returns the `Init` error and never calls cleanup. -/
theorem run_short_circuits_witness :
    (belaRun 1 0).1 = .error Error.Init
    ∧ EngineCall.cleanupAudio ∉ (belaRun 1 0).2 :=
  ⟨((run_short_circuits 1 0).1 (by decide)).1,
   ((run_short_circuits 1 0).1 (by decide)).2.2.2⟩

/-- `AuxiliaryTask` (src/auxiliary_task.rs:7): wraps the raw engine task
handle.  A raw handle value of `0` models a null pointer. -/
structure AuxiliaryTask where
  handle : Nat
  deriving DecidableEq, Repr

/-- `SetupContext::create_auxiliary_task` (src/auxiliary_task.rs:17-58),
parameterized by the raw handle the engine's `Bela_createAuxiliaryTask`
call returns (`0` = null). -/
def create_auxiliary_task (engineHandle : Nat) :
    Except Error AuxiliaryTask :=
  if engineHandle = 0 then .error .CreateTask
  else .ok ⟨engineHandle⟩

/-- `RenderContext::schedule_auxiliary_task` (src/auxiliary_task.rs:61-70),
parameterized by the status `Bela_scheduleAuxiliaryTask` returns:
`0 => Ok(())`, anything else an error. -/
def schedule_auxiliary_task (engineStatus : Int) (_task : AuxiliaryTask) :
    Except Error Unit :=
  if engineStatus = 0 then .ok ()
  else .error .ScheduleTask

/-- C6: `create_auxiliary_task` fails with `CreateTask` iff the engine
returned a null handle and otherwise wraps the engine's handle;
`schedule_auxiliary_task` succeeds iff the engine status is `0` and fails
with `ScheduleTask` otherwise; create followed immediately by schedule
succeeds exactly when the handle is non-null and the status is zero. -/
theorem auxiliary_task_error_mapping (engineHandle : Nat)
    (engineStatus : Int) :
    (create_auxiliary_task engineHandle = .error Error.CreateTask
        ↔ engineHandle = 0)
    ∧ (engineHandle ≠ 0 →
        create_auxiliary_task engineHandle = .ok ⟨engineHandle⟩)
    ∧ (∀ t, schedule_auxiliary_task engineStatus t = .ok ()
        ↔ engineStatus = 0)
    ∧ (∀ t, engineStatus ≠ 0 →
        schedule_auxiliary_task engineStatus t = .error Error.ScheduleTask)
    ∧ ((create_auxiliary_task engineHandle).bind
          (schedule_auxiliary_task engineStatus) = .ok ()
        ↔ engineHandle ≠ 0 ∧ engineStatus = 0) := by
  by_cases hh : engineHandle = 0 <;> by_cases hs : engineStatus = 0 <;>
    simp [create_auxiliary_task, schedule_auxiliary_task, Except.bind, hh, hs]

/-- Concrete instance of `auxiliary_task_error_mapping`: a non-null handle
`7` with status `0` makes create-then-schedule succeed, and a null handle
fails creation. -/
theorem auxiliary_task_error_mapping_witness :
    (create_auxiliary_task 7).bind (schedule_auxiliary_task 0) = .ok ()
    ∧ create_auxiliary_task 0 = .error Error.CreateTask :=
  ⟨((auxiliary_task_error_mapping 7 0).2.2.2.2).mpr ⟨by decide, rfl⟩,
   ((auxiliary_task_error_mapping 0 0).1).mpr rfl⟩

/-! ## Type-state context (src/context.rs) -/

/-- The two phase markers `SetupTag` / `RenderTag` (src/context.rs:5-7). -/
inductive Phase
  | Setup
  | Render
  deriving DecidableEq, Repr

/-- The public operations of `Context<StateTag>`, `SetupContext` and
`RenderContext` from src/context.rs and src/auxiliary_task.rs. -/
inductive ContextOp
  | audio_frames
  | audio_in_channels
  | audio_out_channels
  | audio_sample_rate
  | analog_frames
  | analog_in_channels
  | analog_out_channels
  | analog_sample_rate
  | digital_frames
  | digital_channels
  | digital_sample_rate
  | audio_frames_elapsed
  | multiplexer_channels
  | multiplexer_starting_channel
  | audio_expander_enabled
  | flags
  | create_auxiliary_task
  | audio_out
  | audio_in
  | digital_mut
  | digital
  | analog_out
  | analog_in
  | multiplexer_analog_in
  | digital_read
  | digital_write
  | digital_write_once
  | pin_mode
  | pin_mode_once
  | schedule_auxiliary_task
  deriving DecidableEq, Repr

/-- Which operations exist on a context with each phase tag, transcribed
from the `impl` blocks: `impl<StateTag> Context<StateTag>`
(src/context.rs:25-110) is generic over the tag, `impl SetupContext`
(src/context.rs:113) is empty, `impl RenderContext`
(src/context.rs:116-231) is render-only, and src/auxiliary_task.rs adds
`create_auxiliary_task` to `impl SetupContext` (lines 11-59) and
`schedule_auxiliary_task` to `impl RenderContext` (lines 61-71). -/
def availableOn (p : Phase) (op : ContextOp) : Bool :=
  match op with
  | .audio_frames | .audio_in_channels | .audio_out_channels
  | .audio_sample_rate | .analog_frames | .analog_in_channels
  | .analog_out_channels | .analog_sample_rate | .digital_frames
  | .digital_channels | .digital_sample_rate | .audio_frames_elapsed
  | .multiplexer_channels | .multiplexer_starting_channel
  | .audio_expander_enabled | .flags => true
  | .create_auxiliary_task =>
      match p with
      | .Setup => true
      | .Render => false
  | _ =>
      match p with
      | .Setup => false
      | .Render => true

/-- The fields of `bela_sys::BelaContext` read by the wrapper.  Counts are
`Nat`, the `f32` sample-rate fields are carried as an exact `Rat` value
(no arithmetic is performed on them), buffers are lists. -/
structure BelaCtx where
  audioFrames : Nat
  audioInChannels : Nat
  audioOutChannels : Nat
  audioSampleRate : Rat
  analogFrames : Nat
  analogInChannels : Nat
  analogOutChannels : Nat
  analogSampleRate : Rat
  digitalFrames : Nat
  digitalChannels : Nat
  digitalSampleRate : Rat
  audioFramesElapsed : Nat
  multiplexerChannels : Nat
  multiplexerStartingChannel : Nat
  audioExpanderEnabled : Nat
  ctxFlags : Nat
  audioIn : List Rat
  audioOut : List Rat
  analogIn : List Rat
  analogOut : List Rat
  digitalWords : List Nat
  multiplexerAnalogIn : Option (List Rat)
  deriving DecidableEq, Repr

/-- `Context::audio_frames` (src/context.rs:47-49). -/
def ctx_audio_frames (c : BelaCtx) : Nat := c.audioFrames

/-- `Context::audio_in_channels` (src/context.rs:51-53). -/
def ctx_audio_in_channels (c : BelaCtx) : Nat := c.audioInChannels

/-- `Context::audio_out_channels` (src/context.rs:55-57). -/
def ctx_audio_out_channels (c : BelaCtx) : Nat := c.audioOutChannels

/-- `Context::audio_sample_rate` (src/context.rs:59-61). -/
def ctx_audio_sample_rate (c : BelaCtx) : Rat := c.audioSampleRate

/-- `Context::analog_frames` (src/context.rs:63-65). -/
def ctx_analog_frames (c : BelaCtx) : Nat := c.analogFrames

/-- `Context::analog_in_channels` (src/context.rs:67-69). -/
def ctx_analog_in_channels (c : BelaCtx) : Nat := c.analogInChannels

/-- `Context::analog_out_channels` (src/context.rs:71-73). -/
def ctx_analog_out_channels (c : BelaCtx) : Nat := c.analogOutChannels

/-- `Context::analog_sample_rate` (src/context.rs:75-77). -/
def ctx_analog_sample_rate (c : BelaCtx) : Rat := c.analogSampleRate

/-- `Context::digital_frames` (src/context.rs:79-81). -/
def ctx_digital_frames (c : BelaCtx) : Nat := c.digitalFrames

/-- `Context::digital_channels` (src/context.rs:83-85). -/
def ctx_digital_channels (c : BelaCtx) : Nat := c.digitalChannels

/-- `Context::digital_sample_rate` (src/context.rs:87-89). -/
def ctx_digital_sample_rate (c : BelaCtx) : Rat := c.digitalSampleRate

/-- `Context::audio_frames_elapsed` (src/context.rs:91-93). -/
def ctx_audio_frames_elapsed (c : BelaCtx) : Nat := c.audioFramesElapsed

/-- `Context::multiplexer_channels` (src/context.rs:95-97). -/
def ctx_multiplexer_channels (c : BelaCtx) : Nat := c.multiplexerChannels

/-- `Context::multiplexer_starting_channel` (src/context.rs:99-101). -/
def ctx_multiplexer_starting_channel (c : BelaCtx) : Nat :=
  c.multiplexerStartingChannel

/-- `Context::audio_expander_enabled` (src/context.rs:103-105). -/
def ctx_audio_expander_enabled (c : BelaCtx) : Nat := c.audioExpanderEnabled

/-- `Context::flags` (src/context.rs:107-109). -/
def ctx_flags (c : BelaCtx) : Nat := c.ctxFlags

/-- `create_auxiliary_task` observed at the context level: its `&mut self`
receiver is unused (src/auxiliary_task.rs:18), so the context comes back
unchanged and the result depends only on the engine's reply. -/
def create_auxiliary_task_ctx (c : BelaCtx) (engineHandle : Nat) :
    BelaCtx × Except Error AuxiliaryTask :=
  (c, create_auxiliary_task engineHandle)

/-- Two contexts agreeing on every negotiated-configuration field while
their buffer regions may differ arbitrarily. -/
def SameMeta (x y : BelaCtx) : Prop :=
  x.audioFrames = y.audioFrames ∧ x.audioInChannels = y.audioInChannels
  ∧ x.audioOutChannels = y.audioOutChannels
  ∧ x.audioSampleRate = y.audioSampleRate
  ∧ x.analogFrames = y.analogFrames
  ∧ x.analogInChannels = y.analogInChannels
  ∧ x.analogOutChannels = y.analogOutChannels
  ∧ x.analogSampleRate = y.analogSampleRate
  ∧ x.digitalFrames = y.digitalFrames
  ∧ x.digitalChannels = y.digitalChannels
  ∧ x.digitalSampleRate = y.digitalSampleRate
  ∧ x.audioFramesElapsed = y.audioFramesElapsed
  ∧ x.multiplexerChannels = y.multiplexerChannels
  ∧ x.multiplexerStartingChannel = y.multiplexerStartingChannel
  ∧ x.audioExpanderEnabled = y.audioExpanderEnabled
  ∧ x.ctxFlags = y.ctxFlags

/-- The render-only operations named by the claim: mutable buffer access,
buffer reads, digital pin read/write, task scheduling. -/
def renderOnlyOps : List ContextOp :=
  [.audio_out, .audio_in, .digital_mut, .digital, .analog_out, .analog_in,
   .multiplexer_analog_in, .digital_read, .digital_write,
   .digital_write_once, .pin_mode, .pin_mode_once, .schedule_auxiliary_task]

/-- The introspection operations available in both phases. -/
def introspectionOps : List ContextOp :=
  [.audio_frames, .audio_in_channels, .audio_out_channels,
   .audio_sample_rate, .analog_frames, .analog_in_channels,
   .analog_out_channels, .analog_sample_rate, .digital_frames,
   .digital_channels, .digital_sample_rate, .audio_frames_elapsed,
   .multiplexer_channels, .multiplexer_starting_channel,
   .audio_expander_enabled, .flags]

/-- C2: render-only capabilities (buffer access, digital pin read/write,
task scheduling) are unavailable under the setup tag while introspection
is available under both tags and task creation only under the setup tag;
and every operation callable under the setup tag is independent of the
buffer regions: each introspection operation returns the same value on
two contexts that agree on the negotiated configuration but hold
arbitrary different buffers, and `create_auxiliary_task` leaves the
context unchanged. -/
theorem setup_phase_capabilities :
    (∀ op ∈ renderOnlyOps,
        availableOn Phase.Setup op = false
        ∧ availableOn Phase.Render op = true)
    ∧ (∀ op ∈ introspectionOps,
        availableOn Phase.Setup op = true
        ∧ availableOn Phase.Render op = true)
    ∧ availableOn Phase.Setup .create_auxiliary_task = true
    ∧ availableOn Phase.Render .create_auxiliary_task = false
    ∧ (∀ x y : BelaCtx, SameMeta x y →
        ctx_audio_frames x = ctx_audio_frames y
        ∧ ctx_audio_in_channels x = ctx_audio_in_channels y
        ∧ ctx_audio_out_channels x = ctx_audio_out_channels y
        ∧ ctx_audio_sample_rate x = ctx_audio_sample_rate y
        ∧ ctx_analog_frames x = ctx_analog_frames y
        ∧ ctx_analog_in_channels x = ctx_analog_in_channels y
        ∧ ctx_analog_out_channels x = ctx_analog_out_channels y
        ∧ ctx_analog_sample_rate x = ctx_analog_sample_rate y
        ∧ ctx_digital_frames x = ctx_digital_frames y
        ∧ ctx_digital_channels x = ctx_digital_channels y
        ∧ ctx_digital_sample_rate x = ctx_digital_sample_rate y
        ∧ ctx_audio_frames_elapsed x = ctx_audio_frames_elapsed y
        ∧ ctx_multiplexer_channels x = ctx_multiplexer_channels y
        ∧ ctx_multiplexer_starting_channel x
            = ctx_multiplexer_starting_channel y
        ∧ ctx_audio_expander_enabled x = ctx_audio_expander_enabled y
        ∧ ctx_flags x = ctx_flags y)
    ∧ (∀ (c : BelaCtx) (engineHandle : Nat),
        (create_auxiliary_task_ctx c engineHandle).1 = c
        ∧ (create_auxiliary_task_ctx c engineHandle).2 =
            create_auxiliary_task engineHandle) := by
  refine ⟨by decide, by decide, rfl, rfl, ?_, fun c h => ⟨rfl, rfl⟩⟩
  intro x y h
  obtain ⟨h1, h2, h3, h4, h5, h6, h7, h8, h9, h10, h11, h12, h13, h14,
    h15, h16⟩ := h
  exact ⟨h1, h2, h3, h4, h5, h6, h7, h8, h9, h10, h11, h12, h13, h14,
    h15, h16⟩

/-- Concrete instance of `setup_phase_capabilities`: two contexts equal on
configuration but with different audio-out buffers give the same
introspection results. -/
theorem setup_phase_capabilities_witness :
    ctx_audio_frames
        { audioFrames := 16, audioInChannels := 2, audioOutChannels := 2
          audioSampleRate := 44100, analogFrames := 8, analogInChannels := 8
          analogOutChannels := 8, analogSampleRate := 22050
          digitalFrames := 16, digitalChannels := 16
          digitalSampleRate := 44100, audioFramesElapsed := 0
          multiplexerChannels := 0, multiplexerStartingChannel := 0
          audioExpanderEnabled := 0, ctxFlags := 0, audioIn := []
          audioOut := [1, 2], analogIn := [], analogOut := []
          digitalWords := [], multiplexerAnalogIn := Option.none }
      = ctx_audio_frames
        { audioFrames := 16, audioInChannels := 2, audioOutChannels := 2
          audioSampleRate := 44100, analogFrames := 8, analogInChannels := 8
          analogOutChannels := 8, analogSampleRate := 22050
          digitalFrames := 16, digitalChannels := 16
          digitalSampleRate := 44100, audioFramesElapsed := 0
          multiplexerChannels := 0, multiplexerStartingChannel := 0
          audioExpanderEnabled := 0, ctxFlags := 0, audioIn := []
          audioOut := [3, 4], analogIn := [], analogOut := []
          digitalWords := [5], multiplexerAnalogIn := Option.none } :=
  (setup_phase_capabilities.2.2.2.2.1 _ _
    ⟨rfl, rfl, rfl, rfl, rfl, rfl, rfl, rfl, rfl, rfl, rfl, rfl, rfl, rfl,
     rfl, rfl⟩).1

end BelaRs
